/-
Verification of the `rust-poc` microblog service (`src/main.rs`).

The development shallowly embeds the Rust program:

* `Uuid` values (the `uuid` crate's 128-bit identifiers) are `Nat`s below
  `2 ^ 128`; `Uuid.toString` is the hyphenated lowercase-hex rendering of
  `Uuid::to_string`, and `Uuid.parseStr` models `Uuid::parse_str` on the
  simple and hyphenated formats.
* JSON values (`serde_json::Value`) are the inductive `Json`;
  `Json.render` models `serde_json::to_string` (compact output, string
  escaping as in serde_json's serializer), `Json.getField` models
  `Value::index` with a string key (`Null` on non-objects and missing keys),
  and `Json.asStr` models `Value::as_str`.
* The SQLite table `posts(id, title, content)` is a `List Row`; the sqlx row
  for `SELECT id, title, content FROM posts` carries a nullable `id`, hence
  `Row.id : Option String`.  Store I/O outcomes (`sqlx` success/failure) are
  explicit `Bool` parameters (`insertOk`, `fetchOk`), and the `Uuid::new_v4`
  random identifier is an explicit `Nat` parameter `gid`.
* A Rust panic (`.expect(..)`) produces no HTTP response and is modelled by
  `none` / `FetchResult.crash`; caught errors flow through `Except`.
-/
import Mathlib

/-! ## UUID: hyphenated hexadecimal encoding (the `uuid` crate) -/

/-- Lowercase hex digit character for `d < 16` (`0`-`9`, `a`-`f`). -/
def hexChar (d : Nat) : Char :=
  if d < 10 then Char.ofNat (48 + d) else Char.ofNat (87 + d)

/-- Value of a hex digit character; uppercase digits are accepted as
`Uuid::parse_str` accepts them. -/
def hexVal (c : Char) : Option Nat :=
  if 48 ≤ c.toNat ∧ c.toNat ≤ 57 then some (c.toNat - 48)
  else if 97 ≤ c.toNat ∧ c.toNat ≤ 102 then some (c.toNat - 87)
  else if 65 ≤ c.toNat ∧ c.toNat ≤ 70 then some (c.toNat - 55)
  else none

/-- Big-endian fixed-width hex rendering of `n` on `w` digits. -/
def toHex : Nat → Nat → List Char
  | 0, _ => []
  | w + 1, n => hexChar (n / 16 ^ w) :: toHex w (n % 16 ^ w)

/-- Consume exactly `w` hex digits from the front of `cs`, accumulating their
value onto `acc`; returns the value and the remaining characters. -/
def readHex : Nat → List Char → Nat → Option (Nat × List Char)
  | 0, cs, acc => some (acc, cs)
  | _ + 1, [], _ => none
  | w + 1, c :: cs, acc =>
    match hexVal c with
    | some d => readHex w cs (acc * 16 + d)
    | none => none

/-- Character list of `Uuid::to_string`: the 8-4-4-4-12 hyphenated groups of
the 128-bit value, most significant first. -/
def uuidChars (n : Nat) : List Char :=
  toHex 8 (n / 2 ^ 96) ++
    '-' :: (toHex 4 (n / 2 ^ 80 % 2 ^ 16) ++
      '-' :: (toHex 4 (n / 2 ^ 64 % 2 ^ 16) ++
        '-' :: (toHex 4 (n / 2 ^ 48 % 2 ^ 16) ++
          '-' :: toHex 12 (n % 2 ^ 48))))

/-- Model of `Uuid::to_string` (hyphenated lowercase hex). -/
def Uuid.toString (n : Nat) : String := String.mk (uuidChars n)

/-- Expect a group separator: succeeds exactly on a leading hyphen, giving
the remaining characters. -/
def expectHyphen : List Char → Option (List Char)
  | '-' :: cs => some cs
  | _ => none

/-- Parse a character list as a UUID: either 32 plain hex digits (the simple
format) or the 8-4-4-4-12 hyphenated format, as `Uuid::parse_str` does. -/
def parseChars (cs : List Char) : Option Nat :=
  match readHex 32 cs 0 with
  | some (v, []) => some v
  | _ =>
    match readHex 8 cs 0 with
    | some (a, rest0) =>
      match expectHyphen rest0 with
      | some cs1 =>
        match readHex 4 cs1 0 with
        | some (b, rest1) =>
          match expectHyphen rest1 with
          | some cs2 =>
            match readHex 4 cs2 0 with
            | some (c, rest2) =>
              match expectHyphen rest2 with
              | some cs3 =>
                match readHex 4 cs3 0 with
                | some (d, rest3) =>
                  match expectHyphen rest3 with
                  | some cs4 =>
                    match readHex 12 cs4 0 with
                    | some (e, []) =>
                      some ((((a * 2 ^ 16 + b) * 2 ^ 16 + c) * 2 ^ 16 + d) * 2 ^ 48 + e)
                    | _ => none
                  | none => none
                | _ => none
              | none => none
            | _ => none
          | none => none
        | _ => none
      | none => none
    | none => none

/-- Model of `Uuid::parse_str`. -/
def Uuid.parseStr (s : String) : Option Nat := parseChars s.data

/-! ## JSON values (`serde_json::Value`) -/

/-- Model of `serde_json::Value`.  Objects are association lists; numbers are
integers (number precision plays no role in this program). -/
inductive Json where
  | null : Json
  | bool (b : Bool) : Json
  | num (n : Int) : Json
  | str (s : String) : Json
  | arr (xs : List Json) : Json
  | obj (kvs : List (String × Json)) : Json

/-- Model of `Value::index` with a `&str` key (`post_data["title"]`): the
field's value on objects that have the key, `Null` otherwise. -/
def Json.getField (j : Json) (k : String) : Json :=
  match j with
  | .obj kvs =>
    match kvs.lookup k with
    | some v => v
    | none => .null
  | _ => .null

/-- Model of `Value::as_str`. -/
def Json.asStr : Json → Option String
  | .str s => some s
  | _ => none

/-- serde_json's escaping of one character inside a JSON string: `"` and `\`
get a backslash, control characters use the short escapes `\b \t \n \f \r`
or `\u00XX`. -/
def escapeChar (c : Char) : List Char :=
  if c = '"' then ['\\', '"']
  else if c = '\\' then ['\\', '\\']
  else if c.toNat < 32 then
    if c = '\x08' then ['\\', 'b']
    else if c = '\x09' then ['\\', 't']
    else if c = '\x0a' then ['\\', 'n']
    else if c = '\x0c' then ['\\', 'f']
    else if c = '\x0d' then ['\\', 'r']
    else ['\\', 'u', '0', '0', hexChar (c.toNat / 16), hexChar (c.toNat % 16)]
  else [c]

/-- serde_json rendering of a string literal, quotes included. -/
def renderString (s : String) : String :=
  "\"" ++ String.mk (s.data.foldr (fun c acc => escapeChar c ++ acc) []) ++ "\""

mutual

/-- Model of `serde_json::to_string` on a JSON value: compact output, no
whitespace, object fields in order. -/
def Json.render : Json → String
  | .null => "null"
  | .bool b => cond b "true" "false"
  | .num n => ToString.toString n
  | .str s => renderString s
  | .arr xs => "[" ++ Json.renderArr xs ++ "]"
  | .obj kvs => "\x7b" ++ Json.renderObj kvs ++ "\x7d"

/-- Comma-separated rendering of array elements. -/
def Json.renderArr : List Json → String
  | [] => ""
  | [x] => Json.render x
  | x :: y :: xs => Json.render x ++ "," ++ Json.renderArr (y :: xs)

/-- Comma-separated rendering of `key:value` object fields. -/
def Json.renderObj : List (String × Json) → String
  | [] => ""
  | [(k, v)] => renderString k ++ ":" ++ Json.render v
  | (k, v) :: e :: kvs => renderString k ++ ":" ++ Json.render v ++ "," ++ Json.renderObj (e :: kvs)

end

/-! ## The `Post` entity and its serde instances -/

/-- The `Post` struct of `main.rs`: `id: Uuid, title: String, content: String`.
The `id` is the 128-bit UUID value. -/
structure Post where
  id : Nat
  title : String
  content : String
deriving DecidableEq, Repr

/-- The derived `Serialize` for `Post`: an object with the fields in
declaration order, the UUID serialized as its hyphenated string. -/
def Post.toJson (p : Post) : Json :=
  .obj [("id", .str (Uuid.toString p.id)), ("title", .str p.title), ("content", .str p.content)]

/-- The derived `Deserialize` for `Post`: each field must be present and a
string, and the `id` string must parse as a UUID. -/
def Post.fromJson (j : Json) : Option Post :=
  match j with
  | .obj kvs =>
    match kvs.lookup "id", kvs.lookup "title", kvs.lookup "content" with
    | some (.str i), some (.str t), some (.str c) =>
      match Uuid.parseStr i with
      | some u => some { id := u, title := t, content := c }
      | none => none
    | _, _, _ => none
  | _ => none

/-! ## The store (`posts` table) and the `Microblog` service -/

/-- One row of the `posts` table as sqlx returns it for
`SELECT id, title, content FROM posts`: the `id` column is nullable. -/
structure Row where
  id : Option String
  title : String
  content : String
deriving DecidableEq, Repr

/-- Model of `Microblog::create_post`: builds the `Post` from the fresh id
`gid` and the inputs, runs the INSERT (`insertOk` is the sqlx outcome), and
returns the post or the store-error string together with the table state. -/
def Microblog.create_post (gid : Nat) (title content : String) (db : List Row)
    (insertOk : Bool) : Except String Post × List Row :=
  let post : Post := { id := gid, title := title, content := content }
  let id_string := Uuid.toString post.id
  if insertOk then
    (.ok post, db ++ [{ id := some id_string, title := post.title, content := post.content }])
  else
    (.error "Failed to insert post into database", db)

/-- The row-to-`Post` mapping of `Microblog::get_posts`:
`Uuid::parse_str(row.id.as_deref().unwrap_or("")).expect("Invalid UUID in DB")`.
A row whose id does not parse makes the whole mapping `none` — the `expect`
panic. -/
def rowsToPosts : List Row → Option (List Post)
  | [] => some []
  | r :: rs =>
    match Uuid.parseStr (r.id.getD "") with
    | some u =>
      match rowsToPosts rs with
      | some ps => some ({ id := u, title := r.title, content := r.content } :: ps)
      | none => none
    | none => none

/-- Outcome of `Microblog::get_posts`: the fetched posts, the store-error
string returned as `Err`, or a panic (`.expect` fired) that produces no
value at all. -/
inductive FetchResult where
  | ok (posts : List Post) : FetchResult
  | failure (msg : String) : FetchResult
  | crash (msg : String) : FetchResult
deriving DecidableEq, Repr

/-- Model of `Microblog::get_posts`: `fetchOk` is the sqlx outcome of the
SELECT; on success every row is mapped to a `Post`, and a row with an
unparseable id panics. -/
def Microblog.get_posts (db : List Row) (fetchOk : Bool) : FetchResult :=
  if fetchOk then
    match rowsToPosts db with
    | some ps => .ok ps
    | none => .crash "Invalid UUID in DB"
  else .failure "Failed to fetch posts from database"

/-! ## HTTP layer: responses, handlers, router -/

/-- An HTTP response: status code and body string. -/
structure Response where
  status : Nat
  body : String
deriving DecidableEq, Repr

/-- Model of `error_response`: a response with the given status and the
message as body (the builder cannot fail for the constant statuses used). -/
def error_response (status : Nat) (message : String) : Response :=
  { status := status, body := message }

/-- Model of `json_response`: on `Ok` the serialized value with the default
status 200; on `Err` it logs and answers 500 with body
"Failed to read request body" — the `Err` string is discarded. -/
def json_response (data : Except String Json) : Response :=
  match data with
  | .ok value => { status := 200, body := Json.render value }
  | .error _ => { status := 500, body := "Failed to read request body" }

/-- The create-post handler's view of the request body: reading the body can
fail, the bytes can fail to parse as JSON, or a JSON value is obtained. -/
inductive BodyInput where
  | readErr : BodyInput
  | parseErr : BodyInput
  | json (v : Json) : BodyInput

/-- Model of `post_data["title"].as_str().unwrap_or("").to_string()`. -/
def extractStr (v : Json) (k : String) : String :=
  ((v.getField k).asStr).getD ""

/-- Model of the `create_post` handler: body-read and JSON-parse failures
answer 500 "Failed to read request body"; empty title or content answers
400; otherwise the service runs and `json_response` renders its result.
Returns the response and the table state after the request. -/
def create_post (input : BodyInput) (gid : Nat) (db : List Row)
    (insertOk : Bool) : Response × List Row :=
  match input with
  | .readErr => (error_response 500 "Failed to read request body", db)
  | .parseErr => (error_response 500 "Failed to read request body", db)
  | .json v =>
    let title := extractStr v "title"
    let content := extractStr v "content"
    if title = "" ∨ content = "" then
      (error_response 400 "Title and content cannot be empty", db)
    else
      let r := Microblog.create_post gid title content db insertOk
      (json_response (r.1.map Post.toJson), r.2)

/-- Model of the `get_posts` handler: `json_response(blog.get_posts().await)`.
`none` is a panic escaping the handler — no response is produced and the
serving task crashes. -/
def get_posts (db : List Row) (fetchOk : Bool) : Option Response :=
  match Microblog.get_posts db fetchOk with
  | .ok ps => some (json_response (.ok (.arr (ps.map Post.toJson))))
  | .failure m => some (json_response (.error m))
  | .crash _ => none

/-- Model of `router`: `(method, path)` dispatch to the two handlers, 404
with body "Not Found" for everything else.  Returns the (possibly absent,
if the handler panicked) response and the table state afterwards. -/
def router (method path : String) (input : BodyInput) (gid : Nat)
    (db : List Row) (insertOk fetchOk : Bool) : Option Response × List Row :=
  if method = "POST" ∧ path = "/posts" then
    let r := create_post input gid db insertOk
    (some r.1, r.2)
  else if method = "GET" ∧ path = "/posts" then
    (get_posts db fetchOk, db)
  else
    (some (error_response 404 "Not Found"), db)

/-! ## UUID round-trip lemmas -/

/-- Every hex digit value below 16 renders to a character that parses back to
itself. -/
theorem hexVal_hexChar : ∀ d < 16, hexVal (hexChar d) = some d := by decide

/-- A hyphen is not a hex digit. -/
theorem hexVal_hyphen : hexVal '-' = none := by decide

/-- Reading `w + extra` hex digits from `toHex w n ++ cs` consumes exactly the
rendered digits first, accumulating `n`, and continues on `cs`. -/
theorem readHex_toHex (w : Nat) : ∀ (extra n : Nat) (cs : List Char) (acc : Nat),
    n < 16 ^ w →
    readHex (w + extra) (toHex w n ++ cs) acc = readHex extra cs (acc * 16 ^ w + n) := by
  induction w with
  | zero =>
    intro extra n cs acc hn
    have hn0 : n = 0 := Nat.lt_one_iff.mp hn
    simp [toHex, hn0]
  | succ w ih =>
    intro extra n cs acc hn
    have hdig : n / 16 ^ w < 16 := by
      have h16 : (0:Nat) < 16 ^ w := Nat.pos_pow_of_pos w (by norm_num)
      have : n < 16 ^ w * 16 := by
        calc n < 16 ^ (w + 1) := hn
        _ = 16 ^ w * 16 := by rw [pow_succ]
      exact Nat.div_lt_of_lt_mul (by omega)
    have hmod : n % 16 ^ w < 16 ^ w :=
      Nat.mod_lt _ (Nat.pos_pow_of_pos w (by norm_num))
    have step : readHex (w + 1 + extra) (toHex (w + 1) n ++ cs) acc =
        readHex (w + extra) (toHex w (n % 16 ^ w) ++ cs) (acc * 16 + n / 16 ^ w) := by
      have hshape : w + 1 + extra = (w + extra) + 1 := by omega
      rw [hshape]
      simp only [toHex, List.cons_append, readHex, hexVal_hexChar _ hdig]
      rfl
    rw [step, ih extra (n % 16 ^ w) cs (acc * 16 + n / 16 ^ w) hmod]
    congr 1
    have hrecomp : 16 ^ w * (n / 16 ^ w) + n % 16 ^ w = n := Nat.div_add_mod n (16 ^ w)
    have : (acc * 16 + n / 16 ^ w) * 16 ^ w + n % 16 ^ w = acc * 16 ^ (w + 1) + n := by
      rw [pow_succ]
      nlinarith [hrecomp]
    omega

/-- Dropping a hyphen succeeds exactly on the hyphen head. -/
theorem expectHyphen_cons (cs : List Char) : expectHyphen ('-' :: cs) = some cs := rfl

/-- Reading exactly `w` hex digits from `toHex w n ++ cs` yields `n` on the
accumulator and leaves `cs`. -/
theorem readHex_toHex_exact (w n : Nat) (cs : List Char) (acc : Nat) (h : n < 16 ^ w) :
    readHex w (toHex w n ++ cs) acc = some (acc * 16 ^ w + n, cs) := by
  have h0 := readHex_toHex w 0 n cs acc h
  simpa [readHex] using h0

/-- Reading exactly `w` hex digits from `toHex w n` alone yields `n` and ends
the input. -/
theorem readHex_toHex_nil (w n acc : Nat) (h : n < 16 ^ w) :
    readHex w (toHex w n) acc = some (acc * 16 ^ w + n, []) := by
  have h0 := readHex_toHex_exact w n [] acc h
  simpa using h0

/-- The UUID round trip: the hyphenated string of any 128-bit value parses
back to that value. -/
theorem Uuid.parseStr_toString (n : Nat) (h : n < 2 ^ 128) :
    Uuid.parseStr (Uuid.toString n) = some n := by
  have ha : n / 2 ^ 96 < 16 ^ 8 := by
    refine (Nat.div_lt_iff_lt_mul (by positivity)).mpr ?_
    calc n < 2 ^ 128 := h
    _ = 16 ^ 8 * 2 ^ 96 := by norm_num
  have hb : n / 2 ^ 80 % 2 ^ 16 < 16 ^ 4 := by
    have h4 : (16:Nat) ^ 4 = 2 ^ 16 := by norm_num
    rw [h4]; exact Nat.mod_lt _ (by positivity)
  have hc : n / 2 ^ 64 % 2 ^ 16 < 16 ^ 4 := by
    have h4 : (16:Nat) ^ 4 = 2 ^ 16 := by norm_num
    rw [h4]; exact Nat.mod_lt _ (by positivity)
  have hd : n / 2 ^ 48 % 2 ^ 16 < 16 ^ 4 := by
    have h4 : (16:Nat) ^ 4 = 2 ^ 16 := by norm_num
    rw [h4]; exact Nat.mod_lt _ (by positivity)
  have he : n % 2 ^ 48 < 16 ^ 12 := by
    have h12 : (16:Nat) ^ 12 = 2 ^ 48 := by norm_num
    rw [h12]; exact Nat.mod_lt _ (by positivity)
  show parseChars (uuidChars n) = some n
  rw [uuidChars]
  have e1 : readHex 32
      (toHex 8 (n / 2 ^ 96) ++
        '-' :: (toHex 4 (n / 2 ^ 80 % 2 ^ 16) ++
          '-' :: (toHex 4 (n / 2 ^ 64 % 2 ^ 16) ++
            '-' :: (toHex 4 (n / 2 ^ 48 % 2 ^ 16) ++
              '-' :: toHex 12 (n % 2 ^ 48))))) 0 = none := by
    have h32 : (32 : Nat) = 8 + 24 := rfl
    rw [h32, readHex_toHex 8 24 _ _ 0 ha]
    have h24 : (24 : Nat) = 23 + 1 := rfl
    rw [h24]
    simp [readHex, hexVal_hyphen]
  have e2 := readHex_toHex_exact 8 (n / 2 ^ 96)
    ('-' :: (toHex 4 (n / 2 ^ 80 % 2 ^ 16) ++
      '-' :: (toHex 4 (n / 2 ^ 64 % 2 ^ 16) ++
        '-' :: (toHex 4 (n / 2 ^ 48 % 2 ^ 16) ++
          '-' :: toHex 12 (n % 2 ^ 48))))) 0 ha
  have e3 := readHex_toHex_exact 4 (n / 2 ^ 80 % 2 ^ 16)
    ('-' :: (toHex 4 (n / 2 ^ 64 % 2 ^ 16) ++
      '-' :: (toHex 4 (n / 2 ^ 48 % 2 ^ 16) ++
        '-' :: toHex 12 (n % 2 ^ 48)))) 0 hb
  have e4 := readHex_toHex_exact 4 (n / 2 ^ 64 % 2 ^ 16)
    ('-' :: (toHex 4 (n / 2 ^ 48 % 2 ^ 16) ++
      '-' :: toHex 12 (n % 2 ^ 48))) 0 hc
  have e5 := readHex_toHex_exact 4 (n / 2 ^ 48 % 2 ^ 16)
    ('-' :: toHex 12 (n % 2 ^ 48)) 0 hd
  have e6 := readHex_toHex_nil 12 (n % 2 ^ 48) 0 he
  unfold parseChars
  rw [e1]
  dsimp only
  rw [e2]
  dsimp only
  rw [expectHyphen_cons]
  dsimp only
  rw [e3]
  dsimp only
  rw [expectHyphen_cons]
  dsimp only
  rw [e4]
  dsimp only
  rw [expectHyphen_cons]
  dsimp only
  rw [e5]
  dsimp only
  rw [expectHyphen_cons]
  dsimp only
  rw [e6]
  dsimp only
  simp only [Nat.zero_mul, Nat.zero_add]
  have hdd1 : n / 2 ^ 80 / 2 ^ 16 = n / 2 ^ 96 := by
    rw [Nat.div_div_eq_div_mul]; norm_num
  have hdd2 : n / 2 ^ 64 / 2 ^ 16 = n / 2 ^ 80 := by
    rw [Nat.div_div_eq_div_mul]; norm_num
  have hdd3 : n / 2 ^ 48 / 2 ^ 16 = n / 2 ^ 64 := by
    rw [Nat.div_div_eq_div_mul]; norm_num
  have s1 : n / 2 ^ 96 * 2 ^ 16 + n / 2 ^ 80 % 2 ^ 16 = n / 2 ^ 80 := by
    rw [← hdd1]; exact Nat.div_add_mod' _ _
  have s2 : n / 2 ^ 80 * 2 ^ 16 + n / 2 ^ 64 % 2 ^ 16 = n / 2 ^ 64 := by
    rw [← hdd2]; exact Nat.div_add_mod' _ _
  have s3 : n / 2 ^ 64 * 2 ^ 16 + n / 2 ^ 48 % 2 ^ 16 = n / 2 ^ 48 := by
    rw [← hdd3]; exact Nat.div_add_mod' _ _
  have s4 : n / 2 ^ 48 * 2 ^ 48 + n % 2 ^ 48 = n := Nat.div_add_mod' _ _
  rw [s1, s2, s3, s4]

/-! ## The claims -/

/-- Helper: if some row's id fails to parse as a UUID, the row-to-post
mapping panics as a whole. -/
theorem rowsToPosts_eq_none_of_bad (db : List Row)
    (h : ∃ r ∈ db, Uuid.parseStr (r.id.getD "") = none) : rowsToPosts db = none := by
  induction db with
  | nil => simp at h
  | cons r rs ih =>
    rcases h with ⟨s, hs, hbad⟩
    rcases List.mem_cons.mp hs with rfl | hmem
    · simp [rowsToPosts, hbad]
    · unfold rowsToPosts
      rw [ih ⟨s, hmem, hbad⟩]
      cases Uuid.parseStr (r.id.getD "") <;> simp

/-- Claim C1, counterexample: with a single row whose id "bad" does not parse
as a UUID, the list-posts handler produces no HTTP response at all — the
claimed conversion to an HTTP 500 at the handler boundary does not happen. -/
theorem C1_counterexample :
    get_posts [{ id := some "bad", title := "t", content := "c" }] true = none := by decide

/-- Claim C1 (amended): when the fetch succeeds but some fetched row's id
does not parse back as a UUID, the request fails as a whole — the bad row is
not skipped — but through the panic `Invalid UUID in DB` (`.expect`), which
crashes the serving task: no HTTP response is produced for the request. -/
theorem C1_bad_id_crashes (db : List Row)
    (h : ∃ r ∈ db, Uuid.parseStr (r.id.getD "") = none) :
    Microblog.get_posts db true = .crash "Invalid UUID in DB" ∧ get_posts db true = none := by
  have hm : Microblog.get_posts db true = .crash "Invalid UUID in DB" := by
    unfold Microblog.get_posts
    rw [if_pos rfl, rowsToPosts_eq_none_of_bad db h]
  exact ⟨hm, by unfold get_posts; rw [hm]⟩

/-- Claim C1, witness: the amended claim at the concrete unparseable id
"xyz". -/
theorem C1_witness :
    (∃ r ∈ [({ id := some "xyz", title := "a", content := "b" } : Row)],
      Uuid.parseStr (r.id.getD "") = none) ∧
    (Microblog.get_posts [{ id := some "xyz", title := "a", content := "b" }] true =
        .crash "Invalid UUID in DB" ∧
      get_posts [{ id := some "xyz", title := "a", content := "b" }] true = none) :=
  ⟨by decide, C1_bad_id_crashes _ (by decide)⟩

/-- Claim C2: when the store operation fails, the client does NOT receive
the operation-specific generic message — `json_response` discards the `Err`
string and answers 500 with body "Failed to read request body", on both the
create-post (insert failure) and list-posts (fetch failure) paths.  This
evaluates the code at the failing inputs. -/
theorem C2_store_error_masked :
    create_post (.json (.obj [("title", .str "a"), ("content", .str "b")])) 7 [] false =
      (error_response 500 "Failed to read request body", []) ∧
    get_posts [] false = some (error_response 500 "Failed to read request body") := by decide

/-- Claim C3: for every valid-JSON create-post request whose extracted title
or content (missing or non-string fields defaulting to the empty string) is
empty, the response is 400 with body "Title and content cannot be empty". -/
theorem C3_empty_fields_400 (v : Json) (gid : Nat) (db : List Row) (insertOk : Bool)
    (h : extractStr v "title" = "" ∨ extractStr v "content" = "") :
    create_post (.json v) gid db insertOk =
      (error_response 400 "Title and content cannot be empty", db) := by
  simp only [create_post]
  rw [if_pos h]

/-- Claim C3, witness: the concrete scenario of an empty title with a
non-empty content. -/
theorem C3_witness :
    (extractStr (.obj [("title", .str ""), ("content", .str "x")]) "title" = "" ∨
      extractStr (.obj [("title", .str ""), ("content", .str "x")]) "content" = "") ∧
    create_post (.json (.obj [("title", .str ""), ("content", .str "x")])) 3 [] true =
      (error_response 400 "Title and content cannot be empty", []) :=
  ⟨by decide, C3_empty_fields_400 _ 3 [] true (by decide)⟩

/-- Claim C4: for a valid JSON body with non-empty extracted title and
content, when the insert succeeds the response is 200 with body the JSON
object whose id/title/content fields are the freshly generated UUID string
and the two inputs, and the id string is a well-formed UUID (it parses back
to the generated value). -/
theorem C4_valid_create_200 (v : Json) (gid : Nat) (db : List Row)
    (hgid : gid < 2 ^ 128)
    (ht : extractStr v "title" ≠ "") (hc : extractStr v "content" ≠ "") :
    (create_post (.json v) gid db true).1 =
      { status := 200,
        body := Json.render (Post.toJson
          { id := gid, title := extractStr v "title", content := extractStr v "content" }) } ∧
    Uuid.parseStr (Uuid.toString gid) = some gid := by
  refine ⟨?_, Uuid.parseStr_toString gid hgid⟩
  simp only [create_post]
  rw [if_neg (fun h => h.elim ht hc)]
  simp [Microblog.create_post, json_response, Except.map]

/-- Claim C4, witness: the concrete scenario `{"title":"Hello","content":"World"}`
with generated id 93. -/
theorem C4_witness :
    (93 : Nat) < 2 ^ 128 ∧
    extractStr (.obj [("title", .str "Hello"), ("content", .str "World")]) "title" ≠ "" ∧
    extractStr (.obj [("title", .str "Hello"), ("content", .str "World")]) "content" ≠ "" ∧
    ((create_post (.json (.obj [("title", .str "Hello"), ("content", .str "World")])) 93 [] true).1 =
      { status := 200,
        body := Json.render (Post.toJson
          { id := 93,
            title := extractStr (.obj [("title", .str "Hello"), ("content", .str "World")]) "title",
            content := extractStr (.obj [("title", .str "Hello"), ("content", .str "World")]) "content" }) } ∧
      Uuid.parseStr (Uuid.toString 93) = some 93) :=
  ⟨by decide, by decide, by decide,
    C4_valid_create_200 _ 93 [] (by decide) (by decide) (by decide)⟩

/-- Claim C5: when a create-post request is answered 400 for an empty title
or content, the table state is unchanged and the request's outcome does not
depend on the store's insert behaviour at all — no insert is executed. -/
theorem C5_no_insert_on_400 (v : Json) (gid : Nat) (db : List Row) (i1 i2 : Bool)
    (h : extractStr v "title" = "" ∨ extractStr v "content" = "") :
    (create_post (.json v) gid db i1).2 = db ∧
    create_post (.json v) gid db i1 = create_post (.json v) gid db i2 := by
  simp only [create_post]
  rw [if_pos h, if_pos h]
  exact ⟨rfl, rfl⟩

/-- Claim C5, witness: a body with the title field absent. -/
theorem C5_witness :
    (extractStr (.obj [("content", .str "x")]) "title" = "" ∨
      extractStr (.obj [("content", .str "x")]) "content" = "") ∧
    ((create_post (.json (.obj [("content", .str "x")])) 5 [] true).2 = [] ∧
      create_post (.json (.obj [("content", .str "x")])) 5 [] true =
        create_post (.json (.obj [("content", .str "x")])) 5 [] false) :=
  ⟨by decide, C5_no_insert_on_400 _ 5 [] true false (by decide)⟩

/-- Claim C6: a create-post request whose body is not parseable as JSON is
answered 500 with body "Failed to read request body", for every store state
and store behaviour. -/
theorem C6_unparseable_body_500 (gid : Nat) (db : List Row) (insertOk : Bool) :
    create_post .parseErr gid db insertOk =
      (error_response 500 "Failed to read request body", db) := rfl

/-- Claim C7: the router dispatches POST /posts to the create-post handler
and GET /posts to the list-posts handler, and answers every other
(method, path) pair with 404 "Not Found", regardless of the request body
and of the store. -/
theorem C7_router_dispatch (method path : String) (input : BodyInput) (gid : Nat)
    (db : List Row) (iok fok : Bool) :
    (router "POST" "/posts" input gid db iok fok =
      (some (create_post input gid db iok).1, (create_post input gid db iok).2)) ∧
    (router "GET" "/posts" input gid db iok fok = (get_posts db fok, db)) ∧
    (¬(method = "POST" ∧ path = "/posts") → ¬(method = "GET" ∧ path = "/posts") →
      router method path input gid db iok fok = (some (error_response 404 "Not Found"), db)) := by
  refine ⟨rfl, ?_, ?_⟩
  · unfold router
    rw [if_neg (by simp), if_pos ⟨rfl, rfl⟩]
  · intro h1 h2
    unfold router
    rw [if_neg h1, if_neg h2]

/-- Claim C7, witness: PUT /x is neither route and is answered 404. -/
theorem C7_witness :
    ¬(("PUT" : String) = "POST" ∧ ("/x" : String) = "/posts") ∧
    ¬(("PUT" : String) = "GET" ∧ ("/x" : String) = "/posts") ∧
    router "PUT" "/x" .readErr 0 [] true true = (some (error_response 404 "Not Found"), []) :=
  ⟨by decide, by decide,
    (C7_router_dispatch "PUT" "/x" .readErr 0 [] true true).2.2 (by decide) (by decide)⟩

/-- Claim C8: on an empty store a successful list-posts request is answered
200 with body exactly the empty JSON array "[]" — not null and not an
error. -/
theorem C8_empty_store_empty_array :
    get_posts [] true = some { status := 200, body := "[]" } := by decide

/-- Claim C9: serde round trip — serializing any Post (with a 128-bit id)
to JSON and deserializing it back yields the identical id/title/content
triple. -/
theorem C9_serde_round_trip (p : Post) (h : p.id < 2 ^ 128) :
    Post.fromJson (Post.toJson p) = some p := by
  show (match Uuid.parseStr (Uuid.toString p.id) with
    | some u => some { id := u, title := p.title, content := p.content }
    | none => none) = some p
  rw [Uuid.parseStr_toString p.id h]

/-- Claim C9, witness: the round trip at a concrete Post. -/
theorem C9_witness :
    ((⟨3, "t", "c"⟩ : Post).id < 2 ^ 128) ∧
    Post.fromJson (Post.toJson ⟨3, "t", "c"⟩) = some ⟨3, "t", "c"⟩ :=
  ⟨by decide, C9_serde_round_trip ⟨3, "t", "c"⟩ (by decide)⟩

/-- Claim C10: on a successful create-post the response body is exactly the
serialization of the Post that was inserted: the appended row's three
columns are the id string `Uuid::to_string(post.id)`, the post's title and
the post's content — the same values serialized into the 200 body. -/
theorem C10_response_matches_insert (v : Json) (gid : Nat) (db : List Row)
    (ht : extractStr v "title" ≠ "") (hc : extractStr v "content" ≠ "") :
    create_post (.json v) gid db true =
      ({ status := 200,
         body := Json.render (Post.toJson
           { id := gid, title := extractStr v "title", content := extractStr v "content" }) },
       db ++ [{ id := some (Uuid.toString gid), title := extractStr v "title",
                content := extractStr v "content" }]) := by
  simp only [create_post]
  rw [if_neg (fun h => h.elim ht hc)]
  simp [Microblog.create_post, json_response, Except.map]

/-- Claim C10, witness: the row written and the body served for a concrete
request. -/
theorem C10_witness :
    extractStr (.obj [("title", .str "T"), ("content", .str "C")]) "title" ≠ "" ∧
    extractStr (.obj [("title", .str "T"), ("content", .str "C")]) "content" ≠ "" ∧
    create_post (.json (.obj [("title", .str "T"), ("content", .str "C")])) 11 [] true =
      ({ status := 200,
         body := Json.render (Post.toJson
           { id := 11,
             title := extractStr (.obj [("title", .str "T"), ("content", .str "C")]) "title",
             content := extractStr (.obj [("title", .str "T"), ("content", .str "C")]) "content" }) },
       [] ++ [{ id := some (Uuid.toString 11),
                title := extractStr (.obj [("title", .str "T"), ("content", .str "C")]) "title",
                content := extractStr (.obj [("title", .str "T"), ("content", .str "C")]) "content" }]) :=
  ⟨by decide, by decide,
    C10_response_matches_insert _ 11 [] (by decide) (by decide)⟩
